import Mathlib

/-!
Verification of the reflective control framework (`ControlElement`,
`ControlGroupElement`) of the controlled-frame test app.

The JavaScript source is shallowly embedded: DOM widget state is explicit
data, handler callbacks are abstract identities whose invocations are
recorded as events, and a JavaScript exception is an `Except.error`.
-/

namespace ControlledFrame

/-- A JavaScript value as it appears in field reads/writes: a string, a
boolean, a number, or `undefined`. -/
inductive JsValue where
  | str (s : String)
  | bool (b : Bool)
  | num (n : Int)
  | undefined
  deriving DecidableEq

/-- JavaScript truthiness, as used by `params.buttonText ? ... : ...` and by
assignment to a checkbox's `checked` property. -/
def truthy : JsValue → Bool
  | .str s => s ≠ ""
  | .bool b => b
  | .num n => n ≠ 0
  | .undefined => false

/-- Coercion to string, as performed by assignment to a DOM `value`
property. -/
def jsToString : JsValue → String
  | .str s => s
  | .bool b => if b then "true" else "false"
  | .num n => toString n
  | .undefined => "undefined"

/-- A thrown JavaScript exception: a TypeError (e.g. calling `null` as a
function, or reading a property of `undefined`/`null`), a ReferenceError
(reading an undeclared identifier), or an explicit `throw(msg)`. -/
inductive JsError where
  | typeError
  | referenceError
  | thrown (msg : String)
  deriving DecidableEq

/-- A field descriptor, per the `Field` typedef of controlElement.js: `name`,
`type` (called `ftype` here), initial `value`/`checked`, `options` and
`multiple` for selects, and an optional `id` override (`fid` here). A
property absent from the descriptor object is `none`. -/
structure Field where
  name : Option String
  ftype : String
  value : Option String
  checked : Option Bool
  options : List String
  multiple : Option Bool
  fid : Option String
  deriving DecidableEq

/-- The `params` object accepted by the `ControlElement` constructor.
Handlers are abstract callback identities (`Nat`). -/
structure ControlElementParams where
  name : Option String
  fields : Option (List Field)
  isEventControl : Option Bool
  buttonText : Option String
  handler : Option Nat
  deriving DecidableEq

/-- The state of a constructed `ControlElement`: the fields assigned by the
constructor (controlElement.js lines 99-116). `handler` is the private
`#handler`; `none` models `null`/unbound. -/
structure ControlElement where
  id : String
  name : Option String
  fields : List Field
  isEventControl : Bool
  buttonText : String
  handler : Option Nat
  deriving DecidableEq

/-- The default for `this.buttonText = params.buttonText ? params.buttonText
: 'Call'`: JavaScript truthiness, so an empty string also falls back to
`'Call'`. -/
def defaultButtonText : Option String → String
  | none => "Call"
  | some s => if s = "" then "Call" else s

/-- The `ControlElement` constructor (controlElement.js lines 99-116).
When `params.name` is `undefined` it derives the id prefix from the first
field's name, throwing `'ControlElement: Name or field name must be
provided.'` when the field list is empty or the first field has no name;
reading `.length` of an absent `params.fields` throws a TypeError. When
`params.name` is defined the prefix stays the empty string, so the id is
the bare string `"_control"`. `this.fields = params.fields ? params.fields
: new Array()` keeps any array (an empty array is truthy). -/
def ControlElement.construct (p : ControlElementParams) :
    Except JsError ControlElement :=
  match p.name with
  | some n =>
    .ok ⟨"_control", some n, p.fields.getD [],
      p.isEventControl.getD false, defaultButtonText p.buttonText, p.handler⟩
  | none =>
    match p.fields with
    | none => .error .typeError
    | some fs =>
      match fs with
      | [] => .error (.thrown "ControlElement: Name or field name must be provided.")
      | f :: _ =>
        match f.name with
        | none => .error (.thrown "ControlElement: Name or field name must be provided.")
        | some fn =>
          .ok ⟨fn ++ "_control", none, fs,
            p.isEventControl.getD false, defaultButtonText p.buttonText, p.handler⟩

/-- An observable effect of running a control operation: an invocation of a
handler callback (with the argument control), or a `Log.err` message. -/
inductive Event where
  | handlerCall (h : Nat) (arg : ControlElement)
  | logErr (msg : String)
  deriving DecidableEq

/-- `Submit()` (controlElement.js lines 236-238): `this.#handler(this)` with
no guard, so when `#handler` is `null` the call throws a TypeError
("this.#handler is not a function"); otherwise the handler is invoked once
with the control itself as the sole argument. -/
def ControlElement.Submit (c : ControlElement) : Except JsError (List Event) :=
  match c.handler with
  | none => .error .typeError
  | some h => .ok [.handlerCall h c]

/-- `onBtnClick` (controlElement.js lines 186-192): when `#handler` is unset
it evaluates ``Log.err(`Handler for ${buttonText} is not set.`)`` — but
`buttonText` is a free identifier there (the field is `this.buttonText`),
so building the template literal throws a ReferenceError before `Log.err`
runs; with a handler bound it delegates to `Submit()`. -/
def ControlElement.onBtnClick (c : ControlElement) : Except JsError (List Event) :=
  match c.handler with
  | none => .error .referenceError
  | some _ => c.Submit

/-- `#onKeyDown` (controlElement.js lines 118-122): on a key event whose
`code` is `'Enter'` it calls `this.#handler(this)` unconditionally — no
check that a handler is bound (a `null` handler throws a TypeError) and no
check of `isEventControl`; any other key does nothing. -/
def ControlElement.onKeyDown (c : ControlElement) (code : String) :
    Except JsError (List Event) :=
  if code = "Enter" then
    match c.handler with
    | none => .error .typeError
    | some h => .ok [.handlerCall h c]
  else .ok []

/-- `SetButtonHandler` (controlElement.js lines 233-235): rebinds the single
handler, last write wins. -/
def ControlElement.SetButtonHandler (c : ControlElement) (h : Nat) : ControlElement :=
  { c with handler := some h }

/-- The mutable state of one rendered DOM element addressable inside the
control's render root: a checkbox input, a select (with its `multiple`
flag and `(value, selected)` option list), a div, some other input (its
`type` attribute and current `value`), or the submit button. -/
inductive WidgetState where
  | checkbox (checked : Bool)
  | selectW (multiple : Bool) (options : List (String × Bool))
  | divW (text : String)
  | inputW (itype : String) (value : String)
  | buttonW (label : String)
  deriving DecidableEq

/-- A rendered element: its DOM id and its state. -/
structure Widget where
  id : String
  state : WidgetState
  deriving DecidableEq

/-- The element's DOM `type` property, which is what `GetFieldValue` and
`UpdateFieldValue` switch on. Per the HTML DOM: a checkbox input reports
`"checkbox"`; a select element reports `"select-multiple"` when its
`multiple` attribute is set and `"select-one"` otherwise (never the bare
string `"select"`); a div element has no `type` property (`undefined`);
a button defaults to `"submit"`. An `inputW` reports its input type — in
this app that is never `checkbox`/`select`/`div`, since `renderField`
routes those descriptor types to dedicated elements. -/
def Widget.domType : Widget → Option String
  | ⟨_, .checkbox _⟩ => some "checkbox"
  | ⟨_, .selectW true _⟩ => some "select-multiple"
  | ⟨_, .selectW false _⟩ => some "select-one"
  | ⟨_, .divW _⟩ => none
  | ⟨_, .inputW t _⟩ => some t
  | ⟨_, .buttonW _⟩ => some "submit"

/-- `this.renderRoot.querySelector('#' + fieldName)`: the first element in
tree order whose id matches, or `none` when no such element exists. -/
def querySelector (root : List Widget) (fieldName : String) : Option Widget :=
  root.find? (fun w => w.id = fieldName)

/-- The value `GetFieldValue` produces: a boolean (checkbox), a string
(`field.value`), the options collection of a multiple select (modelled as
the list of all its option values, in order), or `undefined`. -/
inductive FieldValue where
  | bool (b : Bool)
  | str (s : String)
  | optionsList (opts : List String)
  | undefined
  deriving DecidableEq

/-- The DOM `value` property of a select element: the value of its first
selected option, or the empty string when none is selected. -/
def selectValue (opts : List (String × Bool)) : String :=
  match opts.find? (fun p => p.2) with
  | some p => p.1
  | none => ""

/-- `GetFieldValue` (controlElement.js lines 194-207) on a rendered control:
looks the field up by id (a missing field makes `field.type` throw a
TypeError) and switches on the element's DOM `type`: case `"checkbox"`
returns `field.checked`; case `"select-multiple"` returns `field.options`
— the full options collection, regardless of which options are selected;
everything else (single selects, divs, inputs, the button) falls to the
default `field.value` (for a div the `value` property is `undefined`). -/
def GetFieldValue (root : List Widget) (fieldName : String) :
    Except JsError FieldValue :=
  match querySelector root fieldName with
  | none => .error .typeError
  | some w =>
    match w.state with
    | .checkbox c => .ok (.bool c)
    | .selectW true opts => .ok (.optionsList (opts.map Prod.fst))
    | .selectW false opts => .ok (.str (selectValue opts))
    | .divW _ => .ok .undefined
    | .inputW _ v => .ok (.str v)
    | .buttonW _ => .ok (.str "")

/-- Assignment to a select element's `value` property: the first option
whose value equals the assigned string becomes selected and every other
option is deselected; when no option matches, all are deselected. -/
def selectByValue (v : String) : List (String × Bool) → List (String × Bool)
  | [] => []
  | (o, _) :: rest =>
    if o = v then (o, true) :: rest.map (fun p => (p.1, false))
    else (o, false) :: selectByValue v rest

/-- The body of `updateValue` inside `UpdateFieldValue` (controlElement.js
lines 210-225), a switch on the element's DOM `type` property. Only the
case `"checkbox"` label can match an element this app renders: a select
element's DOM type is `"select-one"`/`"select-multiple"`, so the case
`"select"` label (whose body is the no-op `// TODO if needed.`) is dead,
and a div's type is `undefined`, so the case `"div"` label is dead too.
Selects and divs therefore fall through to the default
`field.value = value`: on a select this re-selects by value (changing the
selection); on a div it creates an inert expando property, leaving the
rendered text unchanged (modelled as the identity). -/
def applyUpdate (v : JsValue) : Widget → Widget
  | ⟨i, .checkbox _⟩ => ⟨i, .checkbox (truthy v)⟩
  | ⟨i, .selectW m opts⟩ => ⟨i, .selectW m (selectByValue (jsToString v) opts)⟩
  | ⟨i, .divW t⟩ => ⟨i, .divW t⟩
  | ⟨i, .inputW t _⟩ => ⟨i, .inputW t (jsToString v)⟩
  | ⟨i, .buttonW l⟩ => ⟨i, .buttonW l⟩

/-- Mutation of the first element with the given id, in tree order — the
element `querySelector` returns is the one whose properties are written. -/
def replaceFirst (fieldName : String) (f : Widget → Widget) :
    List Widget → List Widget
  | [] => []
  | w :: ws =>
    if w.id = fieldName then f w :: ws else w :: replaceFirst fieldName f ws

/-- `UpdateFieldValue` (controlElement.js lines 209-231) on a rendered
control: looks the field up by id (a missing field makes `field.type`
throw a TypeError) and applies the `updateValue` switch to it. -/
def UpdateFieldValue (root : List Widget) (fieldName : String) (v : JsValue) :
    Except JsError (List Widget) :=
  match querySelector root fieldName with
  | none => .error .typeError
  | some _ => .ok (replaceFirst fieldName (applyUpdate v) root)

/-- The DOM id `renderField` gives a widget: `field.id !== undefined ?
field.id : field.name` (every field this app renders carries a name). -/
def elemId (f : Field) : String :=
  match f.fid with
  | some i => i
  | none => f.name.getD ""

/-- The initial option states of a freshly rendered select. `renderField`
emits no `selected` attribute on any option, so per the HTML DOM a
single-choice select shows its first option as selected (selectedIndex 0)
while a multiple select starts with nothing selected. -/
def initSelect (multiple : Bool) (opts : List String) :
    List (String × Bool) :=
  match multiple, opts with
  | false, o :: rest => (o, true) :: rest.map (fun p => (p, false))
  | _, os => os.map (fun o => (o, false))

/-- `renderField` (controlElement.js lines 124-154), restricted to the input
widget it materialises (the accompanying `<label>` is inert): a dispatch
on the descriptor's `type` — `checkbox` renders a checkbox input with
`?checked=${field.checked}`, `select` renders a select with one option
per entry of `options`, `div` renders an empty div, and anything else
renders an `<input>` of that type with `value=${field.value ? field.value
: ''}`. -/
def renderWidget (f : Field) : Widget :=
  match f.ftype with
  | "checkbox" => ⟨elemId f, .checkbox (f.checked.getD false)⟩
  | "select" => ⟨elemId f, .selectW (f.multiple.getD false)
      (initSelect (f.multiple.getD false) f.options)⟩
  | "div" => ⟨elemId f, .divW ""⟩
  | t => ⟨elemId f, .inputW t (f.value.getD "")⟩

/-- `maybeRenderButton` (controlElement.js lines 164-177): renders nothing
when `this.isEventControl || !this.#handler`, otherwise a button with id
`"button"` labelled `buttonText` (the optional name label is inert). -/
def ControlElement.maybeRenderButton (c : ControlElement) : List Widget :=
  if c.isEventControl || c.handler.isNone then []
  else [⟨"button", .buttonW c.buttonText⟩]

/-- `render` (controlElement.js lines 179-184): the field widgets in
descriptor order, followed by the optional submit button. -/
def ControlElement.render (c : ControlElement) : List Widget :=
  c.fields.map renderWidget ++ c.maybeRenderButton

/-- Whether a widget is the submit button element. -/
def isButtonW (w : Widget) : Bool :=
  match w.state with
  | .buttonW _ => true
  | _ => false

/-- Whether a render root contains a submit button element. -/
def hasButton (ws : List Widget) : Bool :=
  ws.any isButtonW

/-- The value the spec's words ascribe to reading a multiple select: "the
set of selected options" — the values of exactly the currently selected
options, for comparison against what `GetFieldValue` returns. -/
def selectedOptions (opts : List (String × Bool)) : List String :=
  (opts.filter (fun p => p.2)).map Prod.fst

/-- Whether the constructor cannot derive an id prefix from the fields:
`params.fields` absent (reading its `.length` throws), empty, or with a
nameless first field. -/
def fieldsUnresolvable : Option (List Field) → Bool
  | none => true
  | some [] => true
  | some (f :: _) => f.name.isNone

mutual

/-- A `ControlGroupElement` (controlGroupElement.js): its `heading`, its
`depth` and `expanded` properties, and its private `#controls` array. -/
inductive CGroup : Type where
  | mk (heading : Option String) (depth : Nat) (expanded : Bool)
      (controls : Children) : CGroup

/-- The `#controls` array: an ordered sequence of children. -/
inductive Children : Type where
  | nil : Children
  | cons (c : GroupChild) (rest : Children) : Children

/-- One entry of `#controls`: either a plain `ControlElement` or a nested
`ControlGroupElement` (the code distinguishes the two with
`instanceof ControlGroupElement`). -/
inductive GroupChild : Type where
  | control (c : ControlElement) : GroupChild
  | group (g : CGroup) : GroupChild

end

/-- The group's `depth` property. -/
def CGroup.depth : CGroup → Nat
  | .mk _ d _ _ => d

/-- The group's `expanded` property. -/
def CGroup.expanded : CGroup → Bool
  | .mk _ _ e _ => e

/-- The group's `#controls` array. -/
def CGroup.controls : CGroup → Children
  | .mk _ _ _ cs => cs

/-- `SetGroupDepth` (controlGroupElement.js lines 90-92): overwrites the
`depth` property. -/
def CGroup.SetGroupDepth : CGroup → Nat → CGroup
  | .mk h _ e cs, d => .mk h d e cs

/-- Appending one child, for `AddControl`. -/
def Children.push : Children → GroupChild → Children
  | .nil, c => .cons c .nil
  | .cons x xs, c => .cons x (xs.push c)

/-- `AddControl` (controlGroupElement.js lines 86-88): appends to
`#controls`. -/
def CGroup.AddControl : CGroup → GroupChild → CGroup
  | .mk h d e cs, c => .mk h d e (cs.push c)

/-- The depth-propagation pass inside `render` (controlGroupElement.js lines
74-80): for each entry of `#controls` that is a `ControlGroupElement`,
call `control.SetGroupDepth(this.depth + 1)`; plain controls are left
alone. `d` is the value `this.depth + 1`. -/
def setChildDepths (d : Nat) : Children → Children
  | .nil => .nil
  | .cons (GroupChild.control c) rest =>
    .cons (.control c) (setChildDepths d rest)
  | .cons (GroupChild.group g) rest =>
    .cons (.group (g.SetGroupDepth d)) (setChildDepths d rest)

/-- A render pass of a group (controlGroupElement.js lines 66-84), restricted
to its effect on child state: each direct child group's depth is set to
this group's depth + 1 (each child then re-renders on its own, applying
the same rule one level down). -/
def CGroup.renderPass : CGroup → CGroup
  | .mk h d e cs => .mk h d e (setChildDepths (d + 1) cs)

mutual

/-- `SetExpanded` (controlGroupElement.js lines 98-105): recurses into every
child that is a `ControlGroupElement`, then sets this group's `expanded`
(the code recurses before writing its own flag; the result is the same
state). Plain controls are untouched — `ControlElement` has no
`expanded` property. -/
def CGroup.SetExpanded (b : Bool) : CGroup → CGroup
  | .mk h d _ cs => .mk h d b (setExpandedChildren b cs)

/-- The loop body of `SetExpanded` over the `#controls` array. -/
def setExpandedChildren (b : Bool) : Children → Children
  | .nil => .nil
  | .cons (GroupChild.control c) rest =>
    .cons (.control c) (setExpandedChildren b rest)
  | .cons (GroupChild.group g) rest =>
    .cons (.group (g.SetExpanded b)) (setExpandedChildren b rest)

end

mutual

/-- Whether this group and every descendant group have `expanded = b`. -/
def allExpandedEq (b : Bool) : CGroup → Bool
  | .mk _ _ e cs => (e == b) && allExpandedEqChildren b cs

/-- Whether every group in this child list (at any nesting depth) has
`expanded = b`. -/
def allExpandedEqChildren (b : Bool) : Children → Bool
  | .nil => true
  | .cons (GroupChild.control _) rest => allExpandedEqChildren b rest
  | .cons (GroupChild.group g) rest =>
    allExpandedEq b g && allExpandedEqChildren b rest

end

mutual

/-- The plain `ControlElement`s of the tree, in order. -/
def controlsOf : CGroup → List ControlElement
  | .mk _ _ _ cs => controlsOfChildren cs

/-- The plain `ControlElement`s under a child list, in order. -/
def controlsOfChildren : Children → List ControlElement
  | .nil => []
  | .cons (GroupChild.control c) rest => c :: controlsOfChildren rest
  | .cons (GroupChild.group g) rest => controlsOf g ++ controlsOfChildren rest

end

/-- Membership in a `#controls` array. -/
def childMem (c : GroupChild) : Children → Prop
  | .nil => False
  | .cons x xs => c = x ∨ childMem c xs

/-! Theorems. -/

/-- C1, as stated, is false on the code: `Submit()` has no guard, so on a
control with no bound handler `this.#handler(this)` calls `null` as a
function and throws a TypeError — nothing is logged. The concrete input
is a handlerless non-event control. -/
theorem submit_unbound_throws_cex :
    ControlElement.Submit ⟨"x_control", some "X", [], false, "Call", none⟩
      = Except.error JsError.typeError := rfl

/-- C1 (amended): invoking `Submit()` on a Control with no bound handler
throws a TypeError (the handler is called unconditionally); no warning is
logged — the guarded warning path lives in `onBtnClick`, not in
`Submit()`. -/
theorem submit_unbound_throws (c : ControlElement) (hb : c.handler = none) :
    c.Submit = Except.error JsError.typeError := by
  simp [ControlElement.Submit, hb]

/-- Witness for C1 (amended) at a concrete handlerless control. -/
theorem submit_unbound_throws_witness :
    ControlElement.Submit ⟨"src_control", none, [], false, "Go", none⟩
      = Except.error JsError.typeError :=
  submit_unbound_throws ⟨"src_control", none, [], false, "Go", none⟩ rfl

/-- C2, as stated, is false on the code: `#onKeyDown` ignores
`isEventControl`, so on an event-only control with a bound handler (a
concrete such control below) pressing Enter invokes the handler rather
than having no effect. -/
theorem enter_key_cex :
    ControlElement.onKeyDown ⟨"ev_control", some "ev", [], true, "Call", some 0⟩ "Enter"
      = Except.ok [Event.handlerCall 0 ⟨"ev_control", some "ev", [], true, "Call", some 0⟩]
    ∧ [Event.handlerCall 0 ⟨"ev_control", some "ev", [], true, "Call", some 0⟩]
      ≠ ([] : List Event) :=
  ⟨rfl, by simp⟩

/-- C2 (amended): pressing Enter while focus is within the control invokes
the bound handler exactly as clicking the submit button would, but
regardless of `isEventControl`; when no handler is bound, Enter throws a
TypeError rather than having no effect; keys other than Enter do
nothing. -/
theorem enter_key_behavior (c : ControlElement) :
    (∀ h, c.handler = some h →
      c.onKeyDown "Enter" = c.onBtnClick
      ∧ c.onKeyDown "Enter" = Except.ok [Event.handlerCall h c])
    ∧ (c.handler = none → c.onKeyDown "Enter" = Except.error JsError.typeError)
    ∧ (∀ code, code ≠ "Enter" → c.onKeyDown code = Except.ok []) := by
  refine ⟨fun h hb => ?_, fun hb => ?_, fun code hc => ?_⟩
  · constructor <;>
      simp [ControlElement.onKeyDown, ControlElement.onBtnClick,
        ControlElement.Submit, hb]
  · simp [ControlElement.onKeyDown, hb]
  · simp [ControlElement.onKeyDown, hc]

/-- Witness for C2 (amended): an event-only control with handler 0 (Enter
equals a click and invokes the handler), a handlerless control (Enter
throws), and a non-Enter key (no effect). -/
theorem enter_key_behavior_witness :
    (ControlElement.onKeyDown ⟨"ev_control", some "ev", [], true, "Call", some 0⟩ "Enter"
      = ControlElement.onBtnClick ⟨"ev_control", some "ev", [], true, "Call", some 0⟩)
    ∧ ControlElement.onKeyDown ⟨"src_control", none, [], false, "Go", none⟩ "Enter"
      = Except.error JsError.typeError
    ∧ ControlElement.onKeyDown ⟨"ev_control", some "ev", [], true, "Call", some 0⟩ "KeyA"
      = Except.ok [] :=
  ⟨((enter_key_behavior ⟨"ev_control", some "ev", [], true, "Call", some 0⟩).1 0 rfl).1,
    (enter_key_behavior ⟨"src_control", none, [], false, "Go", none⟩).2.1 rfl,
    (enter_key_behavior ⟨"ev_control", some "ev", [], true, "Call", some 0⟩).2.2 "KeyA"
      (by decide)⟩

/-- C9: invoking `Submit()` on a Control with a bound handler `h` produces
exactly one handler invocation, whose sole argument is the Control
itself. -/
theorem submit_invokes_handler_once (c : ControlElement) (h : Nat)
    (hb : c.handler = some h) :
    c.Submit = Except.ok [Event.handlerCall h c] := by
  simp [ControlElement.Submit, hb]

/-- Witness for C9 at a concrete control bound to handler 5. -/
theorem submit_invokes_handler_once_witness :
    ControlElement.Submit ⟨"go_control", none, [], false, "Go", some 5⟩
      = Except.ok [Event.handlerCall 5 ⟨"go_control", none, [], false, "Go", some 5⟩] :=
  submit_invokes_handler_once ⟨"go_control", none, [], false, "Go", some 5⟩ 5 rfl

/-- C3, as stated, is false on the code: on a multiple select whose options
are `all` and `page` with only `page` selected, `GetFieldValue` returns
`field.options` — the full options collection `[all, page]` — and not the
selected subset `[page]`. -/
theorem getFieldValue_multiselect_cex :
    GetFieldValue
        [⟨"contexts", WidgetState.selectW true [("all", false), ("page", true)]⟩]
        "contexts"
      = Except.ok (FieldValue.optionsList ["all", "page"])
    ∧ selectedOptions [("all", false), ("page", true)] = ["page"]
    ∧ FieldValue.optionsList ["all", "page"] ≠ FieldValue.optionsList ["page"] :=
  ⟨rfl, rfl, by decide⟩

/-- C3 (amended): on a rendered Control whose lookup of `name` finds a
select widget with `multiple` set, `GetFieldValue(name)` returns the
widget's full options collection — every available option value, in
order, independent of which options are currently selected. -/
theorem getFieldValue_multiselect (root : List Widget) (n : String) (w : Widget)
    (opts : List (String × Bool))
    (hq : querySelector root n = some w)
    (hw : w.state = WidgetState.selectW true opts) :
    GetFieldValue root n = Except.ok (FieldValue.optionsList (opts.map Prod.fst)) := by
  simp only [GetFieldValue, hq]
  rw [hw]

/-- Witness for C3 (amended) at a concrete one-widget root. -/
theorem getFieldValue_multiselect_witness :
    GetFieldValue
        [⟨"ctx", WidgetState.selectW true [("frame", true), ("link", false)]⟩]
        "ctx"
      = Except.ok (FieldValue.optionsList ["frame", "link"]) :=
  getFieldValue_multiselect
    [⟨"ctx", WidgetState.selectW true [("frame", true), ("link", false)]⟩]
    "ctx" ⟨"ctx", WidgetState.selectW true [("frame", true), ("link", false)]⟩
    [("frame", true), ("link", false)] rfl rfl

/-- Property writes do not change an element's id. -/
theorem applyUpdate_id (v : JsValue) (w : Widget) :
    (applyUpdate v w).id = w.id := by
  cases w with
  | mk i s => cases s <;> rfl

/-- Looking a field up after `UpdateFieldValue` wrote it finds the written
element: mutating the first id match preserves which element
`querySelector` returns. -/
theorem querySelector_replaceFirst (v : JsValue) (n : String) :
    (root : List Widget) → (w : Widget) →
    querySelector root n = some w →
    querySelector (replaceFirst n (applyUpdate v) root) n
      = some (applyUpdate v w)
  | [], w, h => by simp [querySelector] at h
  | x :: xs, w, h => by
    by_cases hx : x.id = n
    · have hfound : querySelector (x :: xs) n = some x := by
        simp [querySelector, List.find?_cons_of_pos, hx]
      rw [hfound] at h
      have hxw : x = w := Option.some.inj h
      subst hxw
      have hfx : (applyUpdate v x).id = n := by rw [applyUpdate_id]; exact hx
      simp [replaceFirst, hx, querySelector, List.find?_cons_of_pos, hfx]
    · have hstep : querySelector (x :: xs) n = querySelector xs n := by
        simp [querySelector, List.find?_cons_of_neg, hx]
      rw [hstep] at h
      have ih := querySelector_replaceFirst v n xs w h
      simp [replaceFirst, hx, querySelector, List.find?_cons_of_neg] at ih ⊢
      exact ih

/-- C6: on a rendered Control whose lookup of `n` finds a checkbox widget,
`UpdateFieldValue(n, b)` succeeds and a subsequent `GetFieldValue(n)` on
the updated root returns exactly `b` — the boolean write/read
round-trips. -/
theorem checkbox_roundtrip (root : List Widget) (n : String) (w : Widget)
    (cur b : Bool)
    (hq : querySelector root n = some w)
    (hw : w.state = WidgetState.checkbox cur) :
    UpdateFieldValue root n (JsValue.bool b)
      = Except.ok (replaceFirst n (applyUpdate (JsValue.bool b)) root)
    ∧ GetFieldValue (replaceFirst n (applyUpdate (JsValue.bool b)) root) n
      = Except.ok (FieldValue.bool b) := by
  constructor
  · simp [UpdateFieldValue, hq]
  · have h2 := querySelector_replaceFirst (JsValue.bool b) n root w hq
    cases w with
    | mk i s =>
      cases hw
      simp [GetFieldValue, applyUpdate, truthy] at h2 ⊢
      simp [h2]

/-- Witness for C6 at a concrete one-checkbox root, writing `true`. -/
theorem checkbox_roundtrip_witness :
    UpdateFieldValue [⟨"enabled", WidgetState.checkbox false⟩] "enabled"
        (JsValue.bool true)
      = Except.ok (replaceFirst "enabled" (applyUpdate (JsValue.bool true))
          [⟨"enabled", WidgetState.checkbox false⟩])
    ∧ GetFieldValue
        (replaceFirst "enabled" (applyUpdate (JsValue.bool true))
          [⟨"enabled", WidgetState.checkbox false⟩]) "enabled"
      = Except.ok (FieldValue.bool true) :=
  checkbox_roundtrip [⟨"enabled", WidgetState.checkbox false⟩] "enabled"
    ⟨"enabled", WidgetState.checkbox false⟩ false true rfl rfl

/-- C7 is a code bug: the `updateValue` switch's case `"select"` (whose body
is the deliberate no-op `// TODO if needed.`) can never match, because a
select element's DOM `type` is `"select-one"`/`"select-multiple"`; the
write falls through to the default `field.value = value`, which changes
the selection. Concretely: a rendered single-choice select named `type`
with options `normal` (selected, being first) and `radio`; after
`UpdateFieldValue('type', 'radio')` the widget has `radio` selected and
`normal` deselected — not a no-op. -/
theorem select_update_not_noop :
    renderWidget ⟨some "type", "select", none, none, ["normal", "radio"], none, none⟩
      = ⟨"type", WidgetState.selectW false [("normal", true), ("radio", false)]⟩
    ∧ UpdateFieldValue
        [⟨"type", WidgetState.selectW false [("normal", true), ("radio", false)]⟩]
        "type" (JsValue.str "radio")
      = Except.ok
          [⟨"type", WidgetState.selectW false [("normal", false), ("radio", true)]⟩]
    ∧ [(⟨"type", WidgetState.selectW false [("normal", false), ("radio", true)]⟩ : Widget)]
      ≠ [⟨"type", WidgetState.selectW false [("normal", true), ("radio", false)]⟩] :=
  ⟨rfl, rfl, by decide⟩

/-- C8, as stated, is false on the code: when a group-level name is given the
id prefix stays empty, so a control constructed with the name
`Update ServiceWorker` (as the app does) gets id `"_control"`, not the
group name suffixed with `_control`. -/
theorem construct_named_id_cex :
    ControlElement.construct ⟨some "Update ServiceWorker", none, none, some "Update", some 0⟩
      = Except.ok ⟨"_control", some "Update ServiceWorker", [], false, "Update", some 0⟩
    ∧ ("_control" : String) ≠ "Update ServiceWorker" ++ "_control" :=
  ⟨rfl, by decide⟩

/-- C8 (amended): construction fails exactly when no group-level name is
given and no first-field name is resolvable (field list absent, empty, or
first field nameless) — fail fast; in every other case it succeeds, and
the widget id is the first field's name suffixed with `_control` when the
group name is omitted, but the bare string `"_control"` (empty prefix —
the group name is never used) when a group name is given. -/
theorem construct_id_assignment (p : ControlElementParams) :
    ((ControlElement.construct p).isOk
      = (p.name.isSome || !fieldsUnresolvable p.fields))
    ∧ (∀ n, p.name = some n →
        (ControlElement.construct p).map ControlElement.id = Except.ok "_control")
    ∧ (∀ fs f fn, p.name = none → p.fields = some fs → fs.head? = some f →
        f.name = some fn →
        (ControlElement.construct p).map ControlElement.id
          = Except.ok (fn ++ "_control")) := by
  refine ⟨?_, fun n hn => ?_, fun fs f fn hn hfs hhd hfn => ?_⟩
  · match hp : p.name with
    | some n => simp [ControlElement.construct, hp, Except.isOk, Except.toBool]
    | none =>
      match hf : p.fields with
      | none => simp [ControlElement.construct, hp, hf, fieldsUnresolvable, Except.isOk, Except.toBool]
      | some [] => simp [ControlElement.construct, hp, hf, fieldsUnresolvable, Except.isOk, Except.toBool]
      | some (f :: rest) =>
        match hfn : f.name with
        | none =>
          simp [ControlElement.construct, hp, hf, hfn, fieldsUnresolvable, Except.isOk, Except.toBool]
        | some fn =>
          simp [ControlElement.construct, hp, hf, hfn, fieldsUnresolvable, Except.isOk, Except.toBool]
  · simp [ControlElement.construct, hn, Except.map]
  · match fs, hhd with
    | f :: rest, rfl =>
      simp [ControlElement.construct, hn, hfs, hfn, Except.map]

/-- Witness for C8 (amended): a named control gets id `"_control"`; a
nameless control with first field `src` gets id `"src_control"`; a
nameless control with an empty field list fails. -/
theorem construct_id_assignment_witness :
    ((ControlElement.construct ⟨some "Go", none, none, none, none⟩).map
        ControlElement.id = Except.ok "_control")
    ∧ ((ControlElement.construct
          ⟨none, some [⟨some "src", "text", some "https://a.com", none, [], none, none⟩],
            none, none, none⟩).map ControlElement.id
        = Except.ok ("src" ++ "_control"))
    ∧ ((ControlElement.construct ⟨none, some [], none, none, none⟩).isOk
        = ((none : Option String).isSome || !fieldsUnresolvable (some []))) :=
  ⟨(construct_id_assignment ⟨some "Go", none, none, none, none⟩).2.1 "Go" rfl,
    (construct_id_assignment
        ⟨none, some [⟨some "src", "text", some "https://a.com", none, [], none, none⟩],
          none, none, none⟩).2.2
      [⟨some "src", "text", some "https://a.com", none, [], none, none⟩]
      ⟨some "src", "text", some "https://a.com", none, [], none, none⟩
      "src" rfl rfl rfl rfl,
    (construct_id_assignment ⟨none, some [], none, none, none⟩).1⟩

/-- Field widgets are never the submit button: `renderField` materialises a
checkbox, a select, a div, or an input, depending on the descriptor
type. -/
theorem isButtonW_renderWidget (f : Field) : isButtonW (renderWidget f) = false := by
  unfold renderWidget
  split <;> rfl

/-- A control's field row renders no button. -/
theorem hasButton_fieldWidgets (fs : List Field) :
    hasButton (fs.map renderWidget) = false := by
  simp [hasButton, List.any_map, Function.comp, isButtonW_renderWidget]

/-- C10: the render output contains a submit button exactly when the control
is not an event control and a handler is currently bound; in particular a
non-event control with no handler renders no button, because
`maybeRenderButton` tests `this.isEventControl || !this.#handler`. -/
theorem render_button_iff (c : ControlElement) :
    hasButton c.render = (!c.isEventControl && c.handler.isSome) := by
  unfold ControlElement.render
  simp only [hasButton, List.any_append]
  have h1 := hasButton_fieldWidgets c.fields
  simp only [hasButton] at h1
  rw [h1]
  cases he : c.isEventControl <;> cases hh : c.handler <;>
    simp [ControlElement.maybeRenderButton, he, hh, isButtonW]

/-- `SetGroupDepth` overwrites the depth property. -/
theorem setGroupDepth_depth (g : CGroup) (d : Nat) :
    (g.SetGroupDepth d).depth = d := by
  cases g with
  | mk h dd e cs => rfl

/-- Every group in a `#controls` array that went through the render pass's
depth-propagation loop has the propagated depth. -/
theorem mem_setChildDepths (d : Nat) :
    (cs : Children) → (cg : CGroup) →
    childMem (.group cg) (setChildDepths d cs) → cg.depth = d
  | .nil, cg, hmem => by simp [setChildDepths, childMem] at hmem
  | .cons (GroupChild.control c) rest, cg, hmem => by
    simp only [setChildDepths, childMem] at hmem
    rcases hmem with hmem | hmem
    · exact absurd hmem (by simp)
    · exact mem_setChildDepths d rest cg hmem
  | .cons (GroupChild.group g) rest, cg, hmem => by
    simp only [setChildDepths, childMem] at hmem
    rcases hmem with hmem | hmem
    · have : cg = g.SetGroupDepth d := by
        injection hmem
      rw [this, setGroupDepth_depth]
    · exact mem_setChildDepths d rest cg hmem

/-- C4: after a render pass of a parent group with depth `d`, every direct
child Control Group in its `#controls` has depth exactly `d + 1`. The
parent group is quantified over every reachable state — any sequence of
`AddControl` and re-parenting (`SetGroupDepth`) operations included — so
the invariant self-corrects on each render rather than relying on stored
depths. -/
theorem renderPass_child_depth (g cg : CGroup)
    (hmem : childMem (.group cg) g.renderPass.controls) :
    cg.depth = g.depth + 1 := by
  cases g with
  | mk h d e cs =>
    simp only [CGroup.renderPass, CGroup.controls] at hmem
    exact mem_setChildDepths (d + 1) cs cg hmem

/-- Witness for C4: a parent at depth 2 whose child group had stale depth 7;
after the parent's render pass the child group sits at depth 3. -/
theorem renderPass_child_depth_witness :
    childMem (.group (CGroup.mk (some "B") 3 true Children.nil))
      (CGroup.renderPass (CGroup.mk none 2 true
        (Children.cons (GroupChild.group (CGroup.mk (some "B") 7 true Children.nil))
          Children.nil))).controls
    ∧ CGroup.depth (CGroup.mk (some "B") 3 true Children.nil)
      = CGroup.depth (CGroup.mk none 2 true
          (Children.cons (GroupChild.group (CGroup.mk (some "B") 7 true Children.nil))
            Children.nil)) + 1 := by
  have hmem : childMem (.group (CGroup.mk (some "B") 3 true Children.nil))
      (CGroup.renderPass (CGroup.mk none 2 true
        (Children.cons (GroupChild.group (CGroup.mk (some "B") 7 true Children.nil))
          Children.nil))).controls := by
    simp [CGroup.renderPass, CGroup.controls, setChildDepths,
      CGroup.SetGroupDepth, childMem]
  exact ⟨hmem, renderPass_child_depth _ _ hmem⟩

mutual

/-- After `SetExpanded b`, a group and all its descendant groups carry
`expanded = b`. -/
theorem setExpanded_allEq (b : Bool) :
    (g : CGroup) → allExpandedEq b (CGroup.SetExpanded b g) = true
  | .mk h d e cs => by
    simp [CGroup.SetExpanded, allExpandedEq, setExpandedChildren_allEq b cs]

/-- The child-list half of `setExpanded_allEq`. -/
theorem setExpandedChildren_allEq (b : Bool) :
    (cs : Children) →
    allExpandedEqChildren b (setExpandedChildren b cs) = true
  | .nil => rfl
  | .cons (GroupChild.control c) rest => by
    simp [setExpandedChildren, allExpandedEqChildren,
      setExpandedChildren_allEq b rest]
  | .cons (GroupChild.group g) rest => by
    simp [setExpandedChildren, allExpandedEqChildren, setExpanded_allEq b g,
      setExpandedChildren_allEq b rest]

end

mutual

/-- `SetExpanded` leaves the plain Controls of the tree untouched. -/
theorem setExpanded_controls (b : Bool) :
    (g : CGroup) → controlsOf (CGroup.SetExpanded b g) = controlsOf g
  | .mk h d e cs => by
    simp [CGroup.SetExpanded, controlsOf, setExpandedChildren_controls b cs]

/-- The child-list half of `setExpanded_controls`. -/
theorem setExpandedChildren_controls (b : Bool) :
    (cs : Children) →
    controlsOfChildren (setExpandedChildren b cs) = controlsOfChildren cs
  | .nil => rfl
  | .cons (GroupChild.control c) rest => by
    simp [setExpandedChildren, controlsOfChildren,
      setExpandedChildren_controls b rest]
  | .cons (GroupChild.group g) rest => by
    simp [setExpandedChildren, controlsOfChildren, setExpanded_controls b g,
      setExpandedChildren_controls b rest]

end

/-- C5: `SetExpanded(b)` sets `expanded` to `b` on the group itself and on
every descendant Control Group at any nesting depth, and leaves every
plain Control in the tree unchanged (a `ControlElement` has no `expanded`
state at all — the structure carries no such property). -/
theorem setExpanded_recursive (b : Bool) (g : CGroup) :
    allExpandedEq b (CGroup.SetExpanded b g) = true
    ∧ controlsOf (CGroup.SetExpanded b g) = controlsOf g :=
  ⟨setExpanded_allEq b g, setExpanded_controls b g⟩

end ControlledFrame
